import Mathlib

/-!
# rcast: the aria2 download-queue player and the SSDP advertisement lifecycle

A shallow embedding of `internal/player/aria2.go`, `internal/ssdp/upnp.go` and
`internal/ssdp/ssdp.go`.

* Go strings are modelled by `String`; the `strings` helpers the code calls are
  defined on the underlying character lists.
* A Go `error` is modelled by `Option String`: `none` is `nil`, `some msg` is an
  error whose `Error()` text is `msg`.
* Library calls (JSON encoding, the HTTP client, go-ssdp) are parameters of the
  model: a record of functions over an abstract network state.  Every call that
  reaches the network is appended to a trace, so that "how many requests were
  sent" and "which announcements went out" are observable.
* Logging calls have no effect on the modelled state and are left out.
-/

namespace Rcast

/-! ## The `strings` helpers used by the code -/

/-- The test `strings.Contains` on character lists: `sub` occurs in `s`. -/
def hasSub : List Char → List Char → Bool
  | [], sub => sub.isEmpty
  | c :: cs, sub => sub.isPrefixOf (c :: cs) || hasSub cs sub

/-- Go `strings.Contains(s, substr)`. -/
def Contains (s substr : String) : Bool := hasSub s.data substr.data

/-- The replacement `strings.Replace(s, old, new, 1)` on character lists: only the
first (leftmost) occurrence of `old` is replaced. -/
def replaceFirst : List Char → List Char → List Char → List Char
  | [], old, new => if old.isEmpty then new else []
  | c :: cs, old, new =>
    if old.isPrefixOf (c :: cs) then new ++ (c :: cs).drop old.length
    else c :: replaceFirst cs old new

/-- Go `strings.Replace(s, old, new, 1)`. -/
def Replace1 (s old new : String) : String := ⟨replaceFirst s.data old.data new.data⟩

/-- Go `strings.ToLower`, on the ASCII range.  Outside ASCII Go applies the Unicode
lower-case mapping; no code point other than `M` and `U` maps to a character of
`.m3u8`, so the only use the code makes of the result (a containment test for
`.m3u8`) is unaffected. -/
def ToLower (s : String) : String := ⟨s.data.map Char.toLower⟩

/-- Go `fmt.Sprintf("%d", n)` for an `int`. -/
def fmtD (n : Int) : String := toString n

/-! ## Data model of the aria2 backend -/

/-- The struct `Aria2Player`. -/
structure Aria2Player where
  rpcURL : String
  password : String
  downloadPath : String
  deriving DecidableEq, Repr

/-- Function `NewAria2Player`. -/
def NewAria2Player (rpcURL password downloadPath : String) : Aria2Player :=
  { rpcURL := rpcURL, password := password, downloadPath := downloadPath }

/-- A Go `map[string]any` whose values are strings, as an association list with
unique keys. -/
abbrev Options := List (String × String)

/-- Map assignment `m[k] = v`. -/
def Options.set (m : Options) (k v : String) : Options :=
  if m.any (fun kv => kv.1 == k) then m.map (fun kv => if kv.1 == k then (k, v) else kv)
  else m ++ [(k, v)]

/-- Map lookup `m[k]`. -/
def Options.get? (m : Options) (k : String) : Option String := m.lookup k

/-- The keys of a map. -/
def Options.keys (m : Options) : List String := m.map Prod.fst

/-- One element of the `[]any` slice `params`. -/
inductive Param where
  | str (s : String)
  | uris (l : List String)
  | options (m : Options)
  deriving DecidableEq, Repr

/-- The struct `aria2RPCRequest`. -/
structure aria2RPCRequest where
  JSONRPC : String
  ID : String
  Method : String
  Params : List Param
  deriving DecidableEq, Repr

/-- The anonymous struct behind `aria2RPCResponse.Error`. -/
structure rpcError where
  Code : Int
  Message : String
  deriving DecidableEq, Repr

/-- The struct `aria2RPCResponse`; `Result` is kept as raw text, `Error` is the
nullable pointer. -/
structure aria2RPCResponse where
  JSONRPC : String
  ID : String
  Result : Option String
  Error : Option rpcError
  deriving DecidableEq, Repr

/-- The HTTP request built by `sendRPCRequest`. -/
structure HttpRequest where
  method : String
  url : String
  contentType : String
  body : String
  deriving DecidableEq, Repr

/-- The part of `http.Response` the code reads. -/
structure HttpResponse where
  StatusCode : Int
  Body : String
  deriving DecidableEq, Repr

/-- The library calls `sendRPCRequest` makes, over an abstract network state `σ`. -/
structure RpcEnv (σ : Type) where
  /-- Call `json.Marshal(req)`. -/
  marshal : aria2RPCRequest → Except String String
  /-- The validation done by `http.NewRequestWithContext` on the URL: `some e` when
  the request cannot be constructed. -/
  newRequestErr : String → Option String
  /-- Call `client.Do(httpReq)`: a transport failure or a response, together with the
  requests the client put on the wire while serving the call.  The client is built
  without `CheckRedirect`, so it follows redirects and one call can send several
  requests; a transport that fails before connecting sends none. -/
  clientDo : σ → HttpRequest → Except String HttpResponse × List HttpRequest × σ
  /-- Call `json.NewDecoder(resp.Body).Decode(&rpcResp)`. -/
  decode : String → Except String aria2RPCResponse

/-- The network as seen by the player: the abstract state, the requests handed to
`client.Do` (one entry per call) and the requests that went out on the wire. -/
structure RpcWorld (σ : Type) where
  net : σ
  calls : List HttpRequest
  sent : List HttpRequest

/-- Constant `http.StatusOK`. -/
def StatusOK : Int := 200

/-- The header bundle attached for wxlivecdn.com streams (the raw string literal of
`Play`). -/
def wxHeader : String :=
  "Accept: */*\nAccept-Language: zh-CN,zh;q=0.9\nOrigin: https://channels.weixin.qq.com\nReferer: https://channels.weixin.qq.com/web/pages/live?oid=zadrTig6CYU&nid=1w6yO9n_HeE&entrance_id=1009&exportkey=n_ChQIAhIQecFRCryD1CIU2OYMhtRauhL1AQIE97dBBAEAAAAAACQHKf%2FN%2BEsAAAAOpnltbLcz9gKNyK89dVj0liJOrKU22ZRuRK7096bZ89JTuwT7DUaZpiixiZ0URm3%2BfKLnXCbtazpDAJdGuYzsSWWw0sgWfJxIZN4eu%2FdKJ5OTp4PvMRzCd%2FcAhz2Iv%2BPDac2KmYXCdT5PIoUl1Z0FMAP65XE1o8QYGgCbS%2FsG2e7FMPaM%2Bq6opHJdZxq8CCVBjrXh%2FLl2aGerf%2B3Y3AVvFFRdWvq8yWI6CiHegHcBrpZIrygDdJici%2BBfHJ26Zff1sS0GWjq3VZrEhxEZbOAOw7NpwMy%2B1eG26TkbTgB3&pass_ticket=uTkjm6aVJ8%2FeY%2Ft2%2F0cugDeHru%2FoJdEVHdANSQn94GIg1AhlfmNTIriTYkX3ki98i%2FTy3mC%2Bx45OeIBLhXOBdQ%3D%3D&wx_header=0\nSec-Fetch-Dest: empty\nSec-Fetch-Mode: cors\nSec-Fetch-Site: cross-site\nUser-Agent: Mozilla/5.0 (Windows NT 10.0; Win64; x64) AppleWebKit/537.36 (KHTML, like Gecko) Chrome/132.0.0.0 Safari/537.36 NetType/WIFI MicroMessenger/7.0.20.1781(0x6700143B) WindowsWechat(0x63090a13) UnifiedPCWindowsWechat(0xf2541510) XWEB/17071 Flue"

/-! ## `Aria2Player.sendRPCRequest` and `Aria2Player.Play` -/

/-- Method `Aria2Player.sendRPCRequest`: returns the error (or `nil`) and the
world after the call. -/
def Aria2Player.sendRPCRequest {σ : Type} (env : RpcEnv σ) (p : Aria2Player)
    (req : aria2RPCRequest) (w : RpcWorld σ) : Option String × RpcWorld σ :=
  match env.marshal req with
  | .error e => (some ("failed to marshal aria2 RPC request: " ++ e), w)
  | .ok reqBody =>
    match env.newRequestErr p.rpcURL with
    | some e => (some ("failed to create HTTP request: " ++ e), w)
    | none =>
      let httpReq : HttpRequest :=
        { method := "POST", url := p.rpcURL, contentType := "application/json", body := reqBody }
      match env.clientDo w.net httpReq with
      | (.error e, wire, net1) =>
        (some ("failed to send HTTP request to aria2 RPC: " ++ e),
          { net := net1, calls := w.calls ++ [httpReq], sent := w.sent ++ wire })
      | (.ok resp, wire, net1) =>
        let w1 : RpcWorld σ :=
          { net := net1, calls := w.calls ++ [httpReq], sent := w.sent ++ wire }
        if resp.StatusCode ≠ StatusOK then
          (some ("aria2 RPC returned non-OK status: " ++ fmtD resp.StatusCode), w1)
        else
          match env.decode resp.Body with
          | .error e => (some ("failed to decode aria2 RPC response: " ++ e), w1)
          | .ok rpcResp =>
            match rpcResp.Error with
            | some err =>
              (some ("aria2 RPC error: " ++ err.Message ++ " (code: " ++ fmtD err.Code ++ ")"), w1)
            | none => (none, w1)

/-- The first block of `Play` (lines 44-58): the wxlivecdn.com rewrite.  Returns
the URI to submit and the options map after the block. -/
def Aria2Player.rewrite (uri : String) : String × Options :=
  if Contains uri "wxlivecdn.com" && Contains (ToLower uri) ".m3u8" then
    (Replace1 uri ".m3u8" ".flv", Options.set [] "header" wxHeader)
  else (uri, [])

/-- The request `Play` builds (lines 41-93); `id` is the value of `rand.Int()`. -/
def Aria2Player.buildRequest (p : Aria2Player) (uri : String) (id : Nat) : aria2RPCRequest :=
  let r := Aria2Player.rewrite uri
  let uri1 := r.1
  let downloadOptions := r.2
  let params : List Param := []
  let params := if p.password ≠ "" then params ++ [Param.str ("token:" ++ p.password)] else params
  let downloadOptions :=
    if p.downloadPath ≠ "" then downloadOptions.set "dir" p.downloadPath else downloadOptions
  let params := params ++ [Param.uris [uri1], Param.options downloadOptions]
  { JSONRPC := "2.0", ID := toString id, Method := "aria2.addUri", Params := params }

/-- Method `Aria2Player.Play`; `volume` is ignored by the code. -/
def Aria2Player.Play {σ : Type} (env : RpcEnv σ) (p : Aria2Player) (uri : String)
    (_volume : Int) (id : Nat) (w : RpcWorld σ) : Option String × RpcWorld σ :=
  p.sendRPCRequest env (p.buildRequest uri id) w

/-! ## The operations of the capability set other than `Play` -/

/-- Method `Aria2Player.Pause`: error, player and world after the call. -/
def Aria2Player.Pause {σ : Type} (p : Aria2Player) (w : RpcWorld σ) :
    Option String × Aria2Player × RpcWorld σ := (none, p, w)

/-- Method `Aria2Player.Stop`. -/
def Aria2Player.Stop {σ : Type} (p : Aria2Player) (w : RpcWorld σ) :
    Option String × Aria2Player × RpcWorld σ := (none, p, w)

/-- Method `Aria2Player.SetVolume`. -/
def Aria2Player.SetVolume {σ : Type} (p : Aria2Player) (_v : Int) (w : RpcWorld σ) :
    Option String × Aria2Player × RpcWorld σ := (none, p, w)

/-- Method `Aria2Player.SetMute`. -/
def Aria2Player.SetMute {σ : Type} (p : Aria2Player) (_m : Bool) (w : RpcWorld σ) :
    Option String × Aria2Player × RpcWorld σ := (none, p, w)

/-- Method `Aria2Player.SetFullscreen`. -/
def Aria2Player.SetFullscreen {σ : Type} (p : Aria2Player) (_f : Bool) (w : RpcWorld σ) :
    Option String × Aria2Player × RpcWorld σ := (none, p, w)

/-- Method `Aria2Player.SetTitle`. -/
def Aria2Player.SetTitle {σ : Type} (p : Aria2Player) (_title : String) (w : RpcWorld σ) :
    Option String × Aria2Player × RpcWorld σ := (none, p, w)

/-- Method `Aria2Player.Screenshot`. -/
def Aria2Player.Screenshot {σ : Type} (p : Aria2Player) (_path : String) (w : RpcWorld σ) :
    Option String × Aria2Player × RpcWorld σ := (none, p, w)

/-- Method `Aria2Player.SetSpeed`. -/
def Aria2Player.SetSpeed {σ : Type} (p : Aria2Player) (_speed : Float) (w : RpcWorld σ) :
    Option String × Aria2Player × RpcWorld σ := (none, p, w)

/-- Method `Aria2Player.GetDuration`: the first component is the `float64` result. -/
def Aria2Player.GetDuration {σ : Type} (p : Aria2Player) (w : RpcWorld σ) :
    Float × Option String × Aria2Player × RpcWorld σ := (0, none, p, w)

/-- Method `Aria2Player.GetPosition`. -/
def Aria2Player.GetPosition {σ : Type} (p : Aria2Player) (w : RpcWorld σ) :
    Float × Option String × Aria2Player × RpcWorld σ := (0, none, p, w)

/-- Method `Aria2Player.Seek`. -/
def Aria2Player.Seek {σ : Type} (p : Aria2Player) (_seconds : Float) (w : RpcWorld σ) :
    Option String × Aria2Player × RpcWorld σ := (none, p, w)

/-! ## Spec-side reading of a URI

The code never parses the URI; the specification speaks of its host and path.
These two functions read `scheme://host/path?query` the way the specification's
words do, so that inputs can be classified on the specification's terms. -/

/-- The text after the first occurrence of `sub` (empty when `sub` does not occur). -/
def afterSub : List Char → List Char → List Char
  | [], _ => []
  | c :: cs, sub => if sub.isPrefixOf (c :: cs) then (c :: cs).drop sub.length else afterSub cs sub

/-- Spec-side host of a URI: what stands between `://` and the next `/`, `?` or `#`. -/
def specHost (uri : String) : String :=
  ⟨(afterSub uri.data "://".data).takeWhile (fun c => c != '/' && c != '?' && c != '#')⟩

/-- Spec-side path of a URI: from the first `/` after the host up to `?` or `#`. -/
def specPath (uri : String) : String :=
  ⟨((afterSub uri.data "://".data).dropWhile (fun c => c != '/' && c != '?' && c != '#')).takeWhile
    (fun c => c != '?' && c != '#')⟩

/-- Spec-side condition of the rewrite rule: the host is wxlivecdn.com or one of its
subdomains and the path ends in `.m3u8`. -/
def specRuleApplies (uri : String) : Bool :=
  ((specHost uri == "wxlivecdn.com") || ".wxlivecdn.com".data.isSuffixOf (specHost uri).data)
    && ".m3u8".data.isSuffixOf (specPath uri).data

/-! ## Data model of the SSDP advertisement set -/

/-- The constants of package `internal/upnp` that `NewUpnpAds` reads; the package is
not part of the sources at hand, so the four service-type strings are parameters. -/
structure UpnpConsts where
  DeviceType : String
  AVTransportType : String
  RenderingType : String
  ContentDirectoryType : String

/-- The arguments of one call `ssdp.Advertise(st, usn, location, server, maxAge)`. -/
structure AdArgs where
  st : String
  usn : String
  location : String
  server : String
  maxAge : Int
  deriving DecidableEq, Repr

/-- What reaches the network or the library, in order; `A` is the type of advertiser
handles.  The two markers `notifyAll` and `closeAll` record the entry into the
methods of `UpnpAds`. -/
inductive Event (A : Type) where
  | advertise (a : AdArgs)
  | alive (ad : A)
  | bye (ad : A)
  | close (ad : A)
  | monitorStart
  | notifyAll
  | closeAll
  deriving DecidableEq, Repr

/-- The calls into go-ssdp, over an abstract network state `σ`. -/
structure SsdpLib (σ A : Type) where
  /-- Call `ssdp.Advertise`. -/
  Advertise : σ → AdArgs → Except String A × σ
  /-- Call `(*ssdp.Advertiser).Alive`. -/
  Alive : σ → A → Option String × σ
  /-- Call `(*ssdp.Advertiser).Bye`. -/
  Bye : σ → A → Option String × σ
  /-- Call `(*ssdp.Advertiser).Close`. -/
  Close : σ → A → Option String × σ

/-- The network as seen by the SSDP subsystem: abstract state and trace. -/
structure SsdpWorld (σ A : Type) where
  net : σ
  trace : List (Event A)

/-- Appending one event to the trace, with a new network state. -/
def SsdpWorld.record {σ A : Type} (w : SsdpWorld σ A) (n : σ) (e : Event A) : SsdpWorld σ A :=
  { net := n, trace := w.trace ++ [e] }

/-- The struct `UpnpAds`. -/
structure UpnpAds (A : Type) where
  rootAds : List A
  deriving DecidableEq, Repr

/-- The table `usns` of `NewUpnpAds`: pairs `(st, usn)`. -/
def usns (c : UpnpConsts) (deviceUUID : String) : List (String × String) :=
  [ (c.DeviceType, deviceUUID ++ "::" ++ c.DeviceType),
    (c.AVTransportType, deviceUUID ++ "::" ++ c.AVTransportType),
    (c.RenderingType, deviceUUID ++ "::" ++ c.RenderingType),
    ("upnp:rootdevice", deviceUUID ++ "::upnp:rootdevice"),
    (deviceUUID, deviceUUID),
    (c.ContentDirectoryType, deviceUUID) ]

/-- The loop of `NewUpnpAds` over the remaining table entries; `acc` holds the
handles stored so far.  Returns the pair `(list, err)` and the world. -/
def advertiseLoop {σ A : Type} (lib : SsdpLib σ A) (location serverName : String) (maxAge : Int) :
    List (String × String) → List A → SsdpWorld σ A → (Option (List A) × Option String) × SsdpWorld σ A
  | [], acc, w => ((some acc, none), w)
  | x :: xs, acc, w =>
    let args : AdArgs :=
      { st := x.1, usn := x.2, location := location, server := serverName, maxAge := maxAge }
    match lib.Advertise w.net args with
    | (.error e, n) => ((none, some ("advertise error: " ++ e)), w.record n (.advertise args))
    | (.ok a, n) => advertiseLoop lib location serverName maxAge xs (acc ++ [a]) (w.record n (.advertise args))

/-- Function `NewUpnpAds`: the Go result pair `(*UpnpAds, error)` and the world. -/
def NewUpnpAds {σ A : Type} (lib : SsdpLib σ A) (c : UpnpConsts)
    (location deviceUUID serverName : String) (maxAge : Int) (w : SsdpWorld σ A) :
    (Option (UpnpAds A) × Option String) × SsdpWorld σ A :=
  match advertiseLoop lib location serverName maxAge (usns c deviceUUID) [] w with
  | ((some l, _), w1) => ((some { rootAds := l }, none), w1)
  | ((none, err), w1) => ((none, err), w1)

/-- The loop of `NotifyAll` over the remaining advertisers. -/
def aliveLoop {σ A : Type} (lib : SsdpLib σ A) : List A → SsdpWorld σ A → Option String × SsdpWorld σ A
  | [], w => (none, w)
  | v :: rest, w =>
    match lib.Alive w.net v with
    | (some err, n) => (some err, w.record n (.alive v))
    | (none, n) => aliveLoop lib rest (w.record n (.alive v))

/-- Method `UpnpAds.NotifyAll`. -/
def UpnpAds.NotifyAll {σ A : Type} (lib : SsdpLib σ A) (u : UpnpAds A) (w : SsdpWorld σ A) :
    Option String × SsdpWorld σ A :=
  aliveLoop lib u.rootAds (w.record w.net .notifyAll)

/-- The loop of `CloseAll`: `v.Bye()` then `v.Close()`, both results dropped. -/
def closeLoop {σ A : Type} (lib : SsdpLib σ A) : List A → SsdpWorld σ A → SsdpWorld σ A
  | [], w => w
  | v :: rest, w =>
    let w1 := w.record (lib.Bye w.net v).2 (.bye v)
    let w2 := w1.record (lib.Close w1.net v).2 (.close v)
    closeLoop lib rest w2

/-- Method `UpnpAds.CloseAll`. -/
def UpnpAds.CloseAll {σ A : Type} (lib : SsdpLib σ A) (u : UpnpAds A) (w : SsdpWorld σ A) :
    SsdpWorld σ A :=
  closeLoop lib u.rootAds (w.record w.net .closeAll)

/-! ## `StartSSDP`: the search handler and the announcement loop -/

/-- The fields of `ssdp.SearchMessage` the handler reads; `SearchType` is the Go
field `Type`. -/
structure SearchMessage where
  From : String
  SearchType : String

/-- How a piece of code ends: it returns, or the Go runtime stops it because a nil
`*UpnpAds` was dereferenced. -/
inductive Outcome (σ A : Type) where
  | returned (w : SsdpWorld σ A)
  | nilDeref (w : SsdpWorld σ A)

/-- The allow-list test of the `Search` handler (the variable `isSearch`). -/
def isSearch (ty : String) : Bool :=
  Contains ty "ssdp:all" || Contains ty "service:ContentDirectory"
    || Contains ty "service:ConnectionManager" || Contains ty "device:MediaServer"

/-- The `Search` closure of the monitor built by `StartSSDP`; `ads` is the captured
pointer, `none` when it is nil. -/
def searchHandler {σ A : Type} (lib : SsdpLib σ A) (ads : Option (UpnpAds A)) (m : SearchMessage)
    (w : SsdpWorld σ A) : Outcome σ A :=
  if !isSearch m.SearchType then .returned w
  else
    match ads with
    | none => .nilDeref (w.record w.net .notifyAll)
    | some u => .returned (u.NotifyAll lib w).2

/-- The events the `select` of the announcement loop waits for. -/
inductive SchedEvent where
  | tick
  | cancel
  deriving DecidableEq, Repr

/-- The state of the announcement loop. -/
inductive SchedState (σ A : Type) where
  | Running (w : SsdpWorld σ A)
  | Stopped (w : SsdpWorld σ A)
  | Crashed (w : SsdpWorld σ A)

/-- One iteration of the `for { select { ... } }` loop of `StartSSDP`. -/
def schedStep {σ A : Type} (lib : SsdpLib σ A) (ads : Option (UpnpAds A)) :
    SchedState σ A → SchedEvent → SchedState σ A
  | .Running w, .cancel =>
    match ads with
    | none => .Crashed (w.record w.net .closeAll)
    | some u => .Stopped (u.CloseAll lib w)
  | .Running w, .tick =>
    match ads with
    | none => .Crashed (w.record w.net .notifyAll)
    | some u => .Running (u.NotifyAll lib w).2
  | .Stopped w, _ => .Stopped w
  | .Crashed w, _ => .Crashed w

/-- The loop of `StartSSDP` run over a sequence of events. -/
def schedRun {σ A : Type} (lib : SsdpLib σ A) (ads : Option (UpnpAds A)) :
    SchedState σ A → List SchedEvent → SchedState σ A
  | s, [] => s
  | s, e :: es => schedRun lib ads (schedStep lib ads s e) es

/-- The part of `StartSSDP` before the loop: construction of the set (an error is
only logged) and start of the monitor.  Returns the captured `ads` and the world. -/
def startup {σ A : Type} (lib : SsdpLib σ A) (c : UpnpConsts) (baseURL deviceUUID serverName : String)
    (w : SsdpWorld σ A) : Option (UpnpAds A) × SsdpWorld σ A :=
  let location := baseURL ++ "/device.xml"
  let maxAge : Int := 1800
  let r := NewUpnpAds lib c location deviceUUID serverName maxAge w
  (r.1.1, r.2.record r.2.net .monitorStart)

/-- Function `StartSSDP`, run over the events its loop receives. -/
def StartSSDP {σ A : Type} (lib : SsdpLib σ A) (c : UpnpConsts) (baseURL deviceUUID serverName : String)
    (events : List SchedEvent) (w : SsdpWorld σ A) : SchedState σ A :=
  let s := startup lib c baseURL deviceUUID serverName w
  schedRun lib s.1 (.Running s.2) events

/-- Number of entries into `NotifyAll` recorded in a trace. -/
def notifyCalls {A : Type} (t : List (Event A)) : Nat :=
  t.countP (fun e => match e with | .notifyAll => true | _ => false)

/-- Number of entries into `CloseAll` recorded in a trace. -/
def closeCalls {A : Type} (t : List (Event A)) : Nat :=
  t.countP (fun e => match e with | .closeAll => true | _ => false)

/-- The network state after the alive announcements of `pre` went out in order. -/
def netAfterAlive {σ A : Type} (lib : SsdpLib σ A) : List A → σ → σ
  | [], n => n
  | v :: rest, n => netAfterAlive lib rest (lib.Alive n v).2

/-- The result of the alive send for entry `k` of `ads`, in the run that starts in
network state `n` and has sent the entries before `k`; `none` when there is no
entry `k`. -/
def aliveResult {σ A : Type} (lib : SsdpLib σ A) (ads : List A) (n : σ) (k : Nat) :
    Option (Option String) :=
  (ads.get? k).map (fun v => (lib.Alive (netAfterAlive lib (ads.take k) n) v).1)

/-! ## Concrete environments used to evaluate the code -/

/-- A player configured with the default endpoint, no password, no directory. -/
def defaultPlayer : Aria2Player := NewAria2Player "http://localhost:6800/jsonrpc" "" ""

/-- A player with a password and a download directory. -/
def securedPlayer : Aria2Player := NewAria2Player "http://localhost:6800/jsonrpc" "s3cret" "/data"

/-- A player whose endpoint is not a URL (Go: `missing protocol scheme`). -/
def brokenPlayer : Aria2Player := NewAria2Player "://bad" "" ""

/-- The body of a JSON-RPC reply that carries the error object with code 1 and
message `x`: the text `{"error":{"code":1,"message":"x"}}`. -/
def errorBody : String := "\x7b\"error\":\x7b\"code\":1,\"message\":\"x\"\x7d\x7d"

/-- The body of a JSON-RPC reply that carries a result and no error object: the text
`{"id":"7","jsonrpc":"2.0","result":"2089b05ecca3d829"}`. -/
def resultBody : String :=
  "\x7b\"id\":\"7\",\"jsonrpc\":\"2.0\",\"result\":\"2089b05ecca3d829\"\x7d"

/-- An endpoint that answers every `client.Do` call with `r`, after the client put one
request on the wire for each URL of `hops` (the endpoint itself, then the targets
of the redirects it followed; no URL when the transport fails before connecting).
Encoding yields a fixed text and the URL `://bad` is rejected as `url.Parse` does.
Decoding knows three bodies: the empty body is the error `EOF`, `errorBody` is a
reply with an error object and no other field, `resultBody` is a reply with a
result; every other body is taken as undecodable. -/
def cannedEnv (r : Except String HttpResponse) (hops : List String) : RpcEnv Unit where
  marshal := fun _ => .ok "req"
  newRequestErr := fun url =>
    if url = "://bad" then some "parse \"://bad\": missing protocol scheme" else none
  clientDo := fun n req => (r, hops.map (fun u => { req with url := u }), n)
  decode := fun b =>
    if b = "" then .error "EOF"
    else if b = errorBody then
      .ok { JSONRPC := "", ID := "", Result := none, Error := some { Code := 1, Message := "x" } }
    else if b = resultBody then
      .ok { JSONRPC := "2.0", ID := "7", Result := some "2089b05ecca3d829", Error := none }
    else .error "invalid JSON"

/-- The initial world of the player: no client call made, nothing sent. -/
def rpcWorld0 : RpcWorld Unit := { net := (), calls := [], sent := [] }

/-- The request `Play` hands to the HTTP client under `cannedEnv`. -/
def cannedRequest : HttpRequest :=
  { method := "POST", url := "http://localhost:6800/jsonrpc", contentType := "application/json",
    body := "req" }

/-- The copy of `cannedRequest` the client sends to the target of a redirect. -/
def redirectedRequest : HttpRequest :=
  { method := "POST", url := "http://localhost:6801/jsonrpc", contentType := "application/json",
    body := "req" }

/-- Sample values for the four service-type constants. -/
def sampleConsts : UpnpConsts where
  DeviceType := "urn:schemas-upnp-org:device:MediaRenderer:1"
  AVTransportType := "urn:schemas-upnp-org:service:AVTransport:1"
  RenderingType := "urn:schemas-upnp-org:service:RenderingControl:1"
  ContentDirectoryType := "urn:schemas-upnp-org:service:ContentDirectory:1"

/-- A library over a counter: the network state counts the registrations made and a
handle is the number of its registration.  Registration number `failReg` fails
(none fails when `failReg` is `none`), and the alive send of handle `failAlive`
fails. -/
def countingLib (failReg failAlive : Option Nat) : SsdpLib Nat Nat where
  Advertise := fun n _ => if failReg = some n then (.error "no interface", n) else (.ok n, n + 1)
  Alive := fun n ad => (if failAlive = some ad then some "send failed" else none, n)
  Bye := fun n _ => (none, n)
  Close := fun n _ => (none, n)

/-- The initial world of the SSDP subsystem: nothing registered, empty trace. -/
def ssdpWorld0 : SsdpWorld Nat Nat := { net := 0, trace := [] }

/-- A set of three advertisers with handles 0, 1, 2. -/
def threeAds : UpnpAds Nat := { rootAds := [0, 1, 2] }

end Rcast

namespace Rcast

/-! ## Theorems: the aria2 backend -/

/-- C1 (the code at the failing input): the URI
`https://example.com/video.mp4?ref=wxlivecdn.com&fmt=.m3u8` has host `example.com` and
path `/video.mp4`, so the rule of the specification does not apply to it; `Play` all
the same submits it with `.m3u8` replaced by `.flv` and with the header bundle in
the options map. -/
theorem Play_rewrites_uri_of_foreign_host :
    specHost "https://example.com/video.mp4?ref=wxlivecdn.com&fmt=.m3u8" = "example.com" ∧
    specPath "https://example.com/video.mp4?ref=wxlivecdn.com&fmt=.m3u8" = "/video.mp4" ∧
    specRuleApplies "https://example.com/video.mp4?ref=wxlivecdn.com&fmt=.m3u8" = false ∧
    (defaultPlayer.buildRequest "https://example.com/video.mp4?ref=wxlivecdn.com&fmt=.m3u8" 7).Params
      = [Param.uris ["https://example.com/video.mp4?ref=wxlivecdn.com&fmt=.flv"],
         Param.options [("header", wxHeader)]] :=
  ⟨by decide, by decide, by decide, rfl⟩

/-- C2 (the code at the failing input): the URI
`https://foo.wxlivecdn.com/hls.m3u8/stream.m3u8?x=1` has a wxlivecdn.com host and a path
that ends in `.m3u8`; `Play` replaces the first `.m3u8` of the string, so the
submitted URI still ends its path in `.m3u8` and an inner path segment changed. -/
theorem Play_replaces_first_occurrence_only :
    specRuleApplies "https://foo.wxlivecdn.com/hls.m3u8/stream.m3u8?x=1" = true ∧
    (defaultPlayer.buildRequest "https://foo.wxlivecdn.com/hls.m3u8/stream.m3u8?x=1" 7).Params
      = [Param.uris ["https://foo.wxlivecdn.com/hls.flv/stream.m3u8?x=1"],
         Param.options [("header", wxHeader)]] ∧
    specPath "https://foo.wxlivecdn.com/hls.flv/stream.m3u8?x=1" = "/hls.flv/stream.m3u8" :=
  ⟨by decide, rfl, by decide⟩

/-- C3 (counterexample): four `Play` calls against the claim.  A reply with status 200
and an empty body has success status and no error object, yet `Play` returns an
error (the body does not decode).  A reply with the success status 201 and a
result body returns the status error.  A player whose endpoint is not a URL
returns before the client is called, so no request is sent.  And when the client
follows one redirect, the single `Play` call puts two requests on the wire. -/
theorem Play_success_status_counterexample :
    (defaultPlayer.Play (cannedEnv (.ok { StatusCode := 200, Body := "" })
        ["http://localhost:6800/jsonrpc"])
        "https://example.com/video.mp4" 50 7 rpcWorld0).1
      = some "failed to decode aria2 RPC response: EOF" ∧
    (defaultPlayer.Play (cannedEnv (.ok { StatusCode := 201, Body := resultBody })
        ["http://localhost:6800/jsonrpc"])
        "https://example.com/video.mp4" 50 7 rpcWorld0).1
      = some "aria2 RPC returned non-OK status: 201" ∧
    (brokenPlayer.Play (cannedEnv (.ok { StatusCode := 200, Body := resultBody }) ["://bad"])
        "https://example.com/video.mp4" 50 7 rpcWorld0)
      = (some "failed to create HTTP request: parse \"://bad\": missing protocol scheme",
         rpcWorld0) ∧
    rpcWorld0.sent = [] ∧
    (defaultPlayer.Play (cannedEnv (.ok { StatusCode := 200, Body := resultBody })
        ["http://localhost:6800/jsonrpc", "http://localhost:6801/jsonrpc"])
        "https://example.com/video.mp4" 50 7 rpcWorld0)
      = (none, { net := (), calls := [cannedRequest],
                 sent := [cannedRequest, redirectedRequest] }) :=
  ⟨by decide, by decide, rfl, rfl, rfl⟩

/-- C3 (amended): a `Play` call whose request cannot be encoded, or whose HTTP request
cannot be constructed, returns an error and leaves the world as it was: the
client is not called and nothing is sent.  Otherwise `Play` calls the client
exactly once, with the POST request for the configured endpoint, the requests on
the wire are exactly those this one call sent, and the result is decided by the
outcome: a transport failure, a status other than 200 (whatever the body), a body
that does not decode, and a decoded error object each give an error, the status
error carrying the status code and the remote error the remote message and code;
a decoded reply with status 200 and no error object gives success.  The
transport, status and remote errors are pairwise different. -/
theorem Play_rpc_outcomes {σ : Type} (env : RpcEnv σ) (p : Aria2Player) (uri : String)
    (volume : Int) (id : Nat) (w : RpcWorld σ) :
    (∀ e, env.marshal (p.buildRequest uri id) = .error e →
      p.Play env uri volume id w = (some ("failed to marshal aria2 RPC request: " ++ e), w)) ∧
    (∀ body e, env.marshal (p.buildRequest uri id) = .ok body →
      env.newRequestErr p.rpcURL = some e →
      p.Play env uri volume id w = (some ("failed to create HTTP request: " ++ e), w)) ∧
    (∀ body, env.marshal (p.buildRequest uri id) = .ok body → env.newRequestErr p.rpcURL = none →
      (p.Play env uri volume id w).2.calls
        = w.calls ++ [{ method := "POST", url := p.rpcURL, contentType := "application/json",
                        body := body }] ∧
      (p.Play env uri volume id w).2.sent
        = w.sent ++ (env.clientDo w.net ⟨"POST", p.rpcURL, "application/json", body⟩).2.1 ∧
      (p.Play env uri volume id w).2.net
        = (env.clientDo w.net ⟨"POST", p.rpcURL, "application/json", body⟩).2.2 ∧
      (∀ e, (env.clientDo w.net ⟨"POST", p.rpcURL, "application/json", body⟩).1 = .error e →
        (p.Play env uri volume id w).1
          = some ("failed to send HTTP request to aria2 RPC: " ++ e)) ∧
      (∀ resp, (env.clientDo w.net ⟨"POST", p.rpcURL, "application/json", body⟩).1 = .ok resp →
        resp.StatusCode ≠ 200 →
        (p.Play env uri volume id w).1
          = some ("aria2 RPC returned non-OK status: " ++ fmtD resp.StatusCode)) ∧
      (∀ resp e, (env.clientDo w.net ⟨"POST", p.rpcURL, "application/json", body⟩).1 = .ok resp →
        resp.StatusCode = 200 → env.decode resp.Body = .error e →
        (p.Play env uri volume id w).1 = some ("failed to decode aria2 RPC response: " ++ e)) ∧
      (∀ resp r err,
        (env.clientDo w.net ⟨"POST", p.rpcURL, "application/json", body⟩).1 = .ok resp →
        resp.StatusCode = 200 → env.decode resp.Body = .ok r → r.Error = some err →
        (p.Play env uri volume id w).1
          = some ("aria2 RPC error: " ++ err.Message ++ " (code: " ++ fmtD err.Code ++ ")")) ∧
      (∀ resp r, (env.clientDo w.net ⟨"POST", p.rpcURL, "application/json", body⟩).1 = .ok resp →
        resp.StatusCode = 200 → env.decode resp.Body = .ok r → r.Error = none →
        (p.Play env uri volume id w).1 = none)) ∧
    (∀ (e msg : String) (status code : Int),
      "failed to send HTTP request to aria2 RPC: " ++ e
        ≠ "aria2 RPC returned non-OK status: " ++ fmtD status ∧
      "failed to send HTTP request to aria2 RPC: " ++ e
        ≠ "aria2 RPC error: " ++ msg ++ " (code: " ++ fmtD code ++ ")" ∧
      "aria2 RPC returned non-OK status: " ++ fmtD status
        ≠ "aria2 RPC error: " ++ msg ++ " (code: " ++ fmtD code ++ ")") := by
  refine ⟨?_, ?_, ?_, ?_⟩
  · intro e hm
    simp only [Aria2Player.Play, Aria2Player.sendRPCRequest, hm]
  · intro body e hm hn
    simp only [Aria2Player.Play, Aria2Player.sendRPCRequest, hm, hn]
  · intro body hm hn
    simp only [Aria2Player.Play, Aria2Player.sendRPCRequest, hm, hn]
    rcases hd : env.clientDo w.net ⟨"POST", p.rpcURL, "application/json", body⟩ with
      ⟨r, wire, n⟩
    cases r with
    | error e =>
      refine ⟨rfl, rfl, rfl, ?_, ?_, ?_, ?_, ?_⟩
      · intro e1 he
        simp only [Except.error.injEq] at he
        subst he
        rfl
      all_goals
        intros
        simp_all
    | ok resp =>
      refine ⟨?_, ?_, ?_, ?_, ?_, ?_, ?_, ?_⟩
      · simp only []
        split
        · rfl
        · split
          · rfl
          · split <;> rfl
      · simp only []
        split
        · rfl
        · split
          · rfl
          · split <;> rfl
      · simp only []
        split
        · rfl
        · split
          · rfl
          · split <;> rfl
      · intro e he
        simp at he
      · intro resp1 he hs
        simp only [Except.ok.injEq] at he
        subst he
        simp [StatusOK, hs]
      · intro resp1 e he hs hdec
        simp only [Except.ok.injEq] at he
        subst he
        simp [StatusOK, hs, hdec]
      · intro resp1 r err he hs hdec herr
        simp only [Except.ok.injEq] at he
        subst he
        simp [StatusOK, hs, hdec, herr]
      · intro resp1 r he hs hdec herr
        simp only [Except.ok.injEq] at he
        subst he
        simp [StatusOK, hs, hdec, herr]
  · intro e msg status code
    refine ⟨?_, ?_, ?_⟩
    · intro h
      have h0 := congrArg (fun s => s.data.get? 0) h
      simp at h0
    · intro h
      have h0 := congrArg (fun s => s.data.get? 0) h
      simp at h0
    · intro h
      have h0 := congrArg (fun s => s.data.get? 10) h
      simp at h0

/-- C3 (witness): the outcomes at an endpoint answering 500, at one answering 200 with
the error object of code 1 and message `x`, at one whose transport fails before
connecting (a cancelled context: nothing on the wire), and at one answering 200
with a result; the client is called once each time; and the player whose endpoint
is not a URL leaves the world untouched. -/
theorem Play_rpc_outcomes_witness :
    (defaultPlayer.Play (cannedEnv (.ok { StatusCode := 500, Body := errorBody })
        ["http://localhost:6800/jsonrpc"])
        "https://example.com/video.mp4" 50 7 rpcWorld0).1
      = some "aria2 RPC returned non-OK status: 500" ∧
    (defaultPlayer.Play (cannedEnv (.ok { StatusCode := 200, Body := errorBody })
        ["http://localhost:6800/jsonrpc"])
        "https://example.com/video.mp4" 50 7 rpcWorld0).1
      = some "aria2 RPC error: x (code: 1)" ∧
    ((defaultPlayer.Play
        (cannedEnv (.error "Post \"http://localhost:6800/jsonrpc\": context canceled") [])
        "https://example.com/video.mp4" 50 7 rpcWorld0).1
      = some ("failed to send HTTP request to aria2 RPC: "
          ++ "Post \"http://localhost:6800/jsonrpc\": context canceled") ∧
     (defaultPlayer.Play
        (cannedEnv (.error "Post \"http://localhost:6800/jsonrpc\": context canceled") [])
        "https://example.com/video.mp4" 50 7 rpcWorld0).2.calls = [] ++ [cannedRequest] ∧
     (defaultPlayer.Play
        (cannedEnv (.error "Post \"http://localhost:6800/jsonrpc\": context canceled") [])
        "https://example.com/video.mp4" 50 7 rpcWorld0).2.sent = [] ++ []) ∧
    ((defaultPlayer.Play (cannedEnv (.ok { StatusCode := 200, Body := resultBody })
        ["http://localhost:6800/jsonrpc"])
        "https://example.com/video.mp4" 50 7 rpcWorld0).1 = none ∧
     (defaultPlayer.Play (cannedEnv (.ok { StatusCode := 200, Body := resultBody })
        ["http://localhost:6800/jsonrpc"])
        "https://example.com/video.mp4" 50 7 rpcWorld0).2.sent = [] ++ [cannedRequest]) ∧
    brokenPlayer.Play (cannedEnv (.ok { StatusCode := 200, Body := resultBody }) ["://bad"])
        "https://example.com/video.mp4" 50 7 rpcWorld0
      = (some ("failed to create HTTP request: " ++ "parse \"://bad\": missing protocol scheme"),
         rpcWorld0) :=
  ⟨((Play_rpc_outcomes (cannedEnv (.ok { StatusCode := 500, Body := errorBody })
      ["http://localhost:6800/jsonrpc"]) defaultPlayer
      "https://example.com/video.mp4" 50 7 rpcWorld0).2.2.1 "req" rfl rfl).2.2.2.2.1
      { StatusCode := 500, Body := errorBody } rfl (by decide),
   ((Play_rpc_outcomes (cannedEnv (.ok { StatusCode := 200, Body := errorBody })
      ["http://localhost:6800/jsonrpc"]) defaultPlayer
      "https://example.com/video.mp4" 50 7 rpcWorld0).2.2.1 "req" rfl rfl).2.2.2.2.2.2.1
      { StatusCode := 200, Body := errorBody }
      { JSONRPC := "", ID := "", Result := none, Error := some { Code := 1, Message := "x" } }
      { Code := 1, Message := "x" } rfl rfl rfl rfl,
   ⟨((Play_rpc_outcomes
      (cannedEnv (.error "Post \"http://localhost:6800/jsonrpc\": context canceled") [])
      defaultPlayer "https://example.com/video.mp4" 50 7 rpcWorld0).2.2.1 "req" rfl rfl).2.2.2.1
      "Post \"http://localhost:6800/jsonrpc\": context canceled" rfl,
    ((Play_rpc_outcomes
      (cannedEnv (.error "Post \"http://localhost:6800/jsonrpc\": context canceled") [])
      defaultPlayer "https://example.com/video.mp4" 50 7 rpcWorld0).2.2.1 "req" rfl rfl).1,
    ((Play_rpc_outcomes
      (cannedEnv (.error "Post \"http://localhost:6800/jsonrpc\": context canceled") [])
      defaultPlayer "https://example.com/video.mp4" 50 7 rpcWorld0).2.2.1 "req" rfl rfl).2.1⟩,
   ⟨((Play_rpc_outcomes (cannedEnv (.ok { StatusCode := 200, Body := resultBody })
      ["http://localhost:6800/jsonrpc"]) defaultPlayer
      "https://example.com/video.mp4" 50 7 rpcWorld0).2.2.1 "req" rfl rfl).2.2.2.2.2.2.2
      { StatusCode := 200, Body := resultBody }
      { JSONRPC := "2.0", ID := "7", Result := some "2089b05ecca3d829", Error := none }
      rfl rfl rfl rfl,
    ((Play_rpc_outcomes (cannedEnv (.ok { StatusCode := 200, Body := resultBody })
      ["http://localhost:6800/jsonrpc"]) defaultPlayer
      "https://example.com/video.mp4" 50 7 rpcWorld0).2.2.1 "req" rfl rfl).2.1⟩,
   (Play_rpc_outcomes (cannedEnv (.ok { StatusCode := 200, Body := resultBody }) ["://bad"])
      brokenPlayer "https://example.com/video.mp4" 50 7 rpcWorld0).2.1 "req"
      "parse \"://bad\": missing protocol scheme" rfl rfl⟩

/-- C4: the params of the request `Play` builds and submits are the token (only when
the password is non-empty), the one-element list of the URI after the rewrite
step, and the options map; the map has `dir` equal to the download directory
exactly when that is non-empty, and no key other than `dir` and `header`. -/
theorem Play_params {σ : Type} (env : RpcEnv σ) (p : Aria2Player) (uri : String) (volume : Int)
    (id : Nat) (w : RpcWorld σ) :
    p.Play env uri volume id w = p.sendRPCRequest env (p.buildRequest uri id) w ∧
    ∃ opts : Options,
      (p.password ≠ "" → (p.buildRequest uri id).Params
        = [Param.str ("token:" ++ p.password), Param.uris [(Aria2Player.rewrite uri).1],
           Param.options opts]) ∧
      (p.password = "" → (p.buildRequest uri id).Params
        = [Param.uris [(Aria2Player.rewrite uri).1], Param.options opts]) ∧
      (p.downloadPath ≠ "" → opts.get? "dir" = some p.downloadPath) ∧
      (p.downloadPath = "" → "dir" ∉ opts.keys) ∧
      (∀ k ∈ opts.keys, k = "dir" ∨ k = "header") := by
  refine ⟨rfl, ?_⟩
  refine ⟨if p.downloadPath ≠ "" then (Aria2Player.rewrite uri).2.set "dir" p.downloadPath
      else (Aria2Player.rewrite uri).2, ?_, ?_, ?_, ?_, ?_⟩
  · intro hp
    simp [Aria2Player.buildRequest, hp]
  · intro hp
    simp [Aria2Player.buildRequest, hp]
  · intro hd
    simp only [hd, ne_eq, not_false_eq_true, if_true]
    unfold Aria2Player.rewrite
    split <;> simp [Options.set, Options.get?, List.lookup]
  · intro hd
    simp only [hd, ne_eq, not_true_eq_false, if_false]
    unfold Aria2Player.rewrite
    split <;> simp [Options.set, Options.keys]
  · intro k hk
    unfold Aria2Player.rewrite at hk
    by_cases hd : p.downloadPath = ""
    · simp only [hd, ne_eq, not_true_eq_false, if_false] at hk
      split at hk
      · simp [Options.set, Options.keys] at hk
        simp [hk]
      · simp [Options.keys] at hk
    · simp only [hd, ne_eq, not_false_eq_true, if_true] at hk
      split at hk
      · simp [Options.set, Options.keys] at hk
        rcases hk with hk | hk <;> simp [hk]
      · simp [Options.set, Options.keys] at hk
        simp [hk]

/-- C4 (witness): with password `s3cret` and directory `/data` the params of the
spec's rewrite example are the token, the rewritten URI and a map with `header`
and `dir`. -/
theorem Play_params_witness :
    (securedPlayer.buildRequest "https://foo.wxlivecdn.com/bar/stream.m3u8?x=1" 7).Params
      = [Param.str "token:s3cret", Param.uris ["https://foo.wxlivecdn.com/bar/stream.flv?x=1"],
         Param.options [("header", wxHeader), ("dir", "/data")]] ∧
    ∃ opts : Options,
      (securedPlayer.buildRequest "https://foo.wxlivecdn.com/bar/stream.m3u8?x=1" 7).Params
        = [Param.str ("token:" ++ securedPlayer.password),
           Param.uris [(Aria2Player.rewrite "https://foo.wxlivecdn.com/bar/stream.m3u8?x=1").1],
           Param.options opts] ∧
      opts.get? "dir" = some securedPlayer.downloadPath :=
  ⟨rfl,
   (Play_params (cannedEnv (.error "down") []) securedPlayer
      "https://foo.wxlivecdn.com/bar/stream.m3u8?x=1" 50 7 rpcWorld0).2.elim
      (fun opts h => ⟨opts, h.1 (by decide), h.2.2.1 (by decide)⟩)⟩

/-- C10: every operation of the capability set other than `Play` returns no error
(`GetDuration` and `GetPosition` return 0), and leaves the player and the world,
hence the list of requests sent, as they were. -/
theorem noop_operations {σ : Type} (p : Aria2Player) (w : RpcWorld σ) (v : Int) (m f : Bool)
    (title path : String) (speed seconds : Float) :
    p.Pause w = (none, p, w) ∧
    p.Stop w = (none, p, w) ∧
    p.SetVolume v w = (none, p, w) ∧
    p.SetMute m w = (none, p, w) ∧
    p.SetFullscreen f w = (none, p, w) ∧
    p.SetTitle title w = (none, p, w) ∧
    p.Screenshot path w = (none, p, w) ∧
    p.SetSpeed speed w = (none, p, w) ∧
    p.Seek seconds w = (none, p, w) ∧
    p.GetDuration w = (0, none, p, w) ∧
    p.GetPosition w = (0, none, p, w) :=
  ⟨rfl, rfl, rfl, rfl, rfl, rfl, rfl, rfl, rfl, rfl, rfl⟩

/-! ## Lemmas on the loops of `UpnpAds` -/

theorem notifyCalls_append {A : Type} (t1 t2 : List (Event A)) :
    notifyCalls (t1 ++ t2) = notifyCalls t1 + notifyCalls t2 := by
  simp [notifyCalls, List.countP_append]

theorem closeCalls_append {A : Type} (t1 t2 : List (Event A)) :
    closeCalls (t1 ++ t2) = closeCalls t1 + closeCalls t2 := by
  simp [closeCalls, List.countP_append]

theorem aliveLoop_calls {σ A : Type} (lib : SsdpLib σ A) (ads : List A) (w : SsdpWorld σ A) :
    notifyCalls (aliveLoop lib ads w).2.trace = notifyCalls w.trace ∧
    closeCalls (aliveLoop lib ads w).2.trace = closeCalls w.trace := by
  induction ads generalizing w with
  | nil => simp [aliveLoop]
  | cons v rest ih =>
    rcases hA : lib.Alive w.net v with ⟨r, n⟩
    cases r with
    | some err =>
      simp [aliveLoop, hA, SsdpWorld.record, notifyCalls_append, closeCalls_append, notifyCalls,
        closeCalls]
    | none =>
      have h := ih (w.record n (.alive v))
      simp only [aliveLoop, hA]
      rw [h.1, h.2]
      simp [SsdpWorld.record, notifyCalls_append, closeCalls_append, notifyCalls, closeCalls]

theorem NotifyAll_calls {σ A : Type} (lib : SsdpLib σ A) (u : UpnpAds A) (w : SsdpWorld σ A) :
    notifyCalls (u.NotifyAll lib w).2.trace = notifyCalls w.trace + 1 ∧
    closeCalls (u.NotifyAll lib w).2.trace = closeCalls w.trace := by
  have h := aliveLoop_calls lib u.rootAds (w.record w.net .notifyAll)
  simp only [UpnpAds.NotifyAll]
  rw [h.1, h.2]
  simp [SsdpWorld.record, notifyCalls_append, closeCalls_append, notifyCalls, closeCalls]

theorem closeLoop_calls {σ A : Type} (lib : SsdpLib σ A) (ads : List A) (w : SsdpWorld σ A) :
    notifyCalls (closeLoop lib ads w).trace = notifyCalls w.trace ∧
    closeCalls (closeLoop lib ads w).trace = closeCalls w.trace := by
  induction ads generalizing w with
  | nil => simp [closeLoop]
  | cons v rest ih =>
    simp only [closeLoop]
    rw [(ih _).1, (ih _).2]
    simp [SsdpWorld.record, notifyCalls_append, closeCalls_append, notifyCalls, closeCalls]

theorem CloseAll_calls {σ A : Type} (lib : SsdpLib σ A) (u : UpnpAds A) (w : SsdpWorld σ A) :
    notifyCalls (u.CloseAll lib w).trace = notifyCalls w.trace ∧
    closeCalls (u.CloseAll lib w).trace = closeCalls w.trace + 1 := by
  have h := closeLoop_calls lib u.rootAds (w.record w.net .closeAll)
  simp only [UpnpAds.CloseAll]
  rw [h.1, h.2]
  simp [SsdpWorld.record, notifyCalls_append, closeCalls_append, notifyCalls, closeCalls]

theorem aliveResult_zero {σ A : Type} (lib : SsdpLib σ A) (v : A) (rest : List A) (n : σ) :
    aliveResult lib (v :: rest) n 0 = some (lib.Alive n v).1 := by
  simp [aliveResult, netAfterAlive]

theorem aliveResult_succ {σ A : Type} (lib : SsdpLib σ A) (v : A) (rest : List A) (n : σ)
    (k : Nat) :
    aliveResult lib (v :: rest) n (k + 1) = aliveResult lib rest (lib.Alive n v).2 k := by
  simp [aliveResult, netAfterAlive]

theorem aliveLoop_all_ok {σ A : Type} (lib : SsdpLib σ A) (ads : List A) (w : SsdpWorld σ A)
    (h : ∀ k, k < ads.length → aliveResult lib ads w.net k = some none) :
    (aliveLoop lib ads w).1 = none ∧
    (aliveLoop lib ads w).2.trace = w.trace ++ ads.map Event.alive := by
  induction ads generalizing w with
  | nil => simp [aliveLoop]
  | cons v rest ih =>
    have h0 := h 0 (by simp)
    rw [aliveResult_zero] at h0
    rcases hA : lib.Alive w.net v with ⟨r, n⟩
    rw [hA] at h0
    simp only [Option.some.injEq] at h0
    subst h0
    have hrest : ∀ k, k < rest.length →
        aliveResult lib rest (w.record n (.alive v)).net k = some none := by
      intro k hk
      have := h (k + 1) (by simpa using hk)
      rw [aliveResult_succ, hA] at this
      exact this
    have := ih (w.record n (.alive v)) hrest
    simp only [aliveLoop, hA]
    refine ⟨this.1, ?_⟩
    rw [this.2]
    simp [SsdpWorld.record]

theorem aliveLoop_first_failure {σ A : Type} (lib : SsdpLib σ A) (ads : List A)
    (w : SsdpWorld σ A) (k : Nat) (e : String)
    (hk : aliveResult lib ads w.net k = some (some e))
    (hpre : ∀ i, i < k → aliveResult lib ads w.net i = some none) :
    (aliveLoop lib ads w).1 = some e ∧
    (aliveLoop lib ads w).2.trace = w.trace ++ (ads.take (k + 1)).map Event.alive := by
  induction ads generalizing w k with
  | nil => simp [aliveResult] at hk
  | cons v rest ih =>
    rcases hA : lib.Alive w.net v with ⟨r, n⟩
    cases k with
    | zero =>
      rw [aliveResult_zero, hA] at hk
      simp only [Option.some.injEq] at hk
      subst hk
      simp [aliveLoop, hA, SsdpWorld.record]
    | succ k =>
      have h0 := hpre 0 (by simp)
      rw [aliveResult_zero, hA] at h0
      simp only [Option.some.injEq] at h0
      subst h0
      rw [aliveResult_succ, hA] at hk
      have hpre1 : ∀ i, i < k → aliveResult lib rest (w.record n (.alive v)).net i = some none := by
        intro i hi
        have := hpre (i + 1) (by omega)
        rw [aliveResult_succ, hA] at this
        exact this
      have := ih (w.record n (.alive v)) k hk hpre1
      simp only [aliveLoop, hA]
      refine ⟨this.1, ?_⟩
      rw [this.2]
      simp [SsdpWorld.record]

/-! ## Theorems: the advertisement set -/

/-- C5: if every alive send succeeds, `NotifyAll` returns no error and has sent one
alive announcement per entry, in the stored order; if the send for entry `k` is
the first to fail, with error `e`, `NotifyAll` returns `e` and has sent exactly
the entries up to and including `k`, in order, and none after `k`. -/
theorem NotifyAll_fail_fast {σ A : Type} (lib : SsdpLib σ A) (u : UpnpAds A)
    (w : SsdpWorld σ A) :
    ((∀ k, k < u.rootAds.length → aliveResult lib u.rootAds w.net k = some none) →
      (u.NotifyAll lib w).1 = none ∧
      (u.NotifyAll lib w).2.trace = w.trace ++ Event.notifyAll :: u.rootAds.map Event.alive) ∧
    (∀ k e, aliveResult lib u.rootAds w.net k = some (some e) →
      (∀ i, i < k → aliveResult lib u.rootAds w.net i = some none) →
      (u.NotifyAll lib w).1 = some e ∧
      (u.NotifyAll lib w).2.trace
        = w.trace ++ Event.notifyAll :: (u.rootAds.take (k + 1)).map Event.alive) := by
  constructor
  · intro h
    have := aliveLoop_all_ok lib u.rootAds (w.record w.net .notifyAll) h
    simp only [UpnpAds.NotifyAll]
    refine ⟨this.1, ?_⟩
    rw [this.2]
    simp [SsdpWorld.record]
  · intro k e hk hpre
    have := aliveLoop_first_failure lib u.rootAds (w.record w.net .notifyAll) k e hk hpre
    simp only [UpnpAds.NotifyAll]
    refine ⟨this.1, ?_⟩
    rw [this.2]
    simp [SsdpWorld.record]

/-- C5 (witness): on three advertisers, a transport that never fails lets all three
go out; one that fails on the second lets the first two go out and returns its
error. -/
theorem NotifyAll_fail_fast_witness :
    ((threeAds.NotifyAll (countingLib none none) ssdpWorld0).1 = none ∧
      (threeAds.NotifyAll (countingLib none none) ssdpWorld0).2.trace
        = [Event.notifyAll, Event.alive 0, Event.alive 1, Event.alive 2]) ∧
    ((threeAds.NotifyAll (countingLib none (some 1)) ssdpWorld0).1 = some "send failed" ∧
      (threeAds.NotifyAll (countingLib none (some 1)) ssdpWorld0).2.trace
        = [Event.notifyAll, Event.alive 0, Event.alive 1]) :=
  ⟨(NotifyAll_fail_fast (countingLib none none) threeAds ssdpWorld0).1 (by decide),
   (NotifyAll_fail_fast (countingLib none (some 1)) threeAds ssdpWorld0).2 1 "send failed"
      (by decide) (by decide)⟩

theorem advertiseLoop_ok_trace {σ A : Type} (lib : SsdpLib σ A) (location serverName : String)
    (maxAge : Int) (xs : List (String × String)) (acc : List A) (w : SsdpWorld σ A) (l : List A)
    (h : (advertiseLoop lib location serverName maxAge xs acc w).1.1 = some l) :
    l.length = acc.length + xs.length ∧
    (advertiseLoop lib location serverName maxAge xs acc w).2.trace
      = w.trace ++ xs.map (fun x => Event.advertise
          { st := x.1, usn := x.2, location := location, server := serverName, maxAge := maxAge }) := by
  induction xs generalizing acc w with
  | nil =>
    simp only [advertiseLoop, Option.some.injEq] at h
    subst h
    simp [advertiseLoop]
  | cons x xs ih =>
    rcases hA : lib.Advertise w.net
      { st := x.1, usn := x.2, location := location, server := serverName, maxAge := maxAge }
      with ⟨r, n⟩
    cases r with
    | error e => simp [advertiseLoop, hA] at h
    | ok a =>
      simp only [advertiseLoop, hA] at h ⊢
      have := ih (acc ++ [a]) _ h
      refine ⟨?_, ?_⟩
      · rw [this.1]
        simp
        omega
      · rw [this.2]
        simp [SsdpWorld.record]

theorem advertiseLoop_succeeds {σ A : Type} (lib : SsdpLib σ A) (location serverName : String)
    (maxAge : Int) (xs : List (String × String)) (acc : List A) (w : SsdpWorld σ A)
    (hall : ∀ n a, ∃ ad n1, lib.Advertise n a = (Except.ok ad, n1)) :
    ∃ l, (advertiseLoop lib location serverName maxAge xs acc w).1 = (some l, none) := by
  induction xs generalizing acc w with
  | nil => exact ⟨acc, rfl⟩
  | cons x xs ih =>
    obtain ⟨ad, n1, hA⟩ := hall w.net
      { st := x.1, usn := x.2, location := location, server := serverName, maxAge := maxAge }
    simp only [advertiseLoop, hA]
    exact ih _ _

/-- C6 (the code at the failing input): when the first registration fails,
`NewUpnpAds` returns no set and an error, and `StartSSDP` goes on: the monitor is
started, the search handler and the first timer tick call `NotifyAll` on the nil
set and the cancellation calls `CloseAll` on it, each stopped by the runtime. -/
theorem StartSSDP_continues_after_failed_registration :
    (NewUpnpAds (countingLib (some 0) none) sampleConsts "http://10.0.0.2:8200/device.xml"
        "uuid:1" "rcast" 1800 ssdpWorld0).1
      = (none, some "advertise error: no interface") ∧
    (∃ w, StartSSDP (countingLib (some 0) none) sampleConsts "http://10.0.0.2:8200" "uuid:1"
        "rcast" [SchedEvent.tick] ssdpWorld0 = SchedState.Crashed w ∧
      w.trace = [Event.advertise
          { st := "urn:schemas-upnp-org:device:MediaRenderer:1",
            usn := "uuid:1::urn:schemas-upnp-org:device:MediaRenderer:1",
            location := "http://10.0.0.2:8200/device.xml", server := "rcast", maxAge := 1800 },
        Event.monitorStart, Event.notifyAll]) ∧
    (∃ w, StartSSDP (countingLib (some 0) none) sampleConsts "http://10.0.0.2:8200" "uuid:1"
        "rcast" [SchedEvent.cancel] ssdpWorld0 = SchedState.Crashed w ∧
      closeCalls w.trace = 1) ∧
    (∃ w, searchHandler (countingLib (some 0) none)
        (startup (countingLib (some 0) none) sampleConsts "http://10.0.0.2:8200" "uuid:1" "rcast"
          ssdpWorld0).1
        { From := "10.0.0.9:1900", SearchType := "ssdp:all" } ssdpWorld0 = Outcome.nilDeref w) :=
  ⟨rfl, ⟨_, rfl, by decide⟩, ⟨_, rfl, by decide⟩, ⟨_, rfl⟩⟩

/-- C7: when the registrations succeed, `NewUpnpAds` returns a set; and whenever it
returns a set, the set holds six advertisers and exactly six registrations were
made, in the order device type, AVTransport, RenderingControl, `upnp:rootdevice`,
bare device UUID, ContentDirectory, all with the given location, server name and
maxAge, the unique-service-name being `deviceUUID ++ "::" ++ serviceType` for the
first four and the bare `deviceUUID` for the last two. -/
theorem NewUpnpAds_registers_six {σ A : Type} (lib : SsdpLib σ A) (c : UpnpConsts)
    (location deviceUUID serverName : String) (maxAge : Int) (w : SsdpWorld σ A) :
    ((∀ n a, ∃ ad n1, lib.Advertise n a = (Except.ok ad, n1)) →
      ∃ u, (NewUpnpAds lib c location deviceUUID serverName maxAge w).1 = (some u, none)) ∧
    (∀ u, (NewUpnpAds lib c location deviceUUID serverName maxAge w).1.1 = some u →
      u.rootAds.length = 6 ∧
      (NewUpnpAds lib c location deviceUUID serverName maxAge w).2.trace = w.trace ++
        [ Event.advertise ⟨c.DeviceType, deviceUUID ++ "::" ++ c.DeviceType,
            location, serverName, maxAge⟩,
          Event.advertise ⟨c.AVTransportType, deviceUUID ++ "::" ++ c.AVTransportType,
            location, serverName, maxAge⟩,
          Event.advertise ⟨c.RenderingType, deviceUUID ++ "::" ++ c.RenderingType,
            location, serverName, maxAge⟩,
          Event.advertise ⟨"upnp:rootdevice", deviceUUID ++ "::" ++ "upnp:rootdevice",
            location, serverName, maxAge⟩,
          Event.advertise ⟨deviceUUID, deviceUUID, location, serverName, maxAge⟩,
          Event.advertise ⟨c.ContentDirectoryType, deviceUUID, location, serverName, maxAge⟩ ]) := by
  constructor
  · intro hall
    obtain ⟨l, hl⟩ := advertiseLoop_succeeds lib location serverName maxAge (usns c deviceUUID) []
      w hall
    refine ⟨{ rootAds := l }, ?_⟩
    unfold NewUpnpAds
    rcases hr : advertiseLoop lib location serverName maxAge (usns c deviceUUID) [] w with
      ⟨⟨o, err⟩, w1⟩
    rw [hr] at hl
    simp only [Prod.mk.injEq] at hl
    obtain ⟨ho, _⟩ := hl
    subst ho
    rfl
  · intro u hu
    unfold NewUpnpAds at hu ⊢
    rcases hr : advertiseLoop lib location serverName maxAge (usns c deviceUUID) [] w with
      ⟨⟨o, err⟩, w1⟩
    rw [hr] at hu
    cases o with
    | none => simp at hu
    | some l =>
      simp only [Option.some.injEq] at hu
      subst hu
      have := advertiseLoop_ok_trace lib location serverName maxAge (usns c deviceUUID) [] w l
        (by rw [hr])
      rw [hr] at this
      refine ⟨by simpa [usns] using this.1, ?_⟩
      simp only []
      rw [this.2]
      simp [usns, String.append_assoc]

/-- C7 (witness): with the sample constants and a registrar that never fails, the set
has the handles of six registrations and the fourth registration is
`upnp:rootdevice` with unique-service-name `uuid:1::upnp:rootdevice`. -/
theorem NewUpnpAds_registers_six_witness :
    (∃ u, (NewUpnpAds (countingLib none none) sampleConsts "http://10.0.0.2:8200/device.xml"
        "uuid:1" "rcast" 1800 ssdpWorld0).1 = (some u, none)) ∧
    (NewUpnpAds (countingLib none none) sampleConsts "http://10.0.0.2:8200/device.xml"
        "uuid:1" "rcast" 1800 ssdpWorld0).2.trace.length = 6 ∧
    (NewUpnpAds (countingLib none none) sampleConsts "http://10.0.0.2:8200/device.xml"
        "uuid:1" "rcast" 1800 ssdpWorld0).2.trace.get? 3
      = some (Event.advertise ⟨"upnp:rootdevice", "uuid:1::upnp:rootdevice",
          "http://10.0.0.2:8200/device.xml", "rcast", 1800⟩) :=
  ⟨(NewUpnpAds_registers_six (countingLib none none) sampleConsts
      "http://10.0.0.2:8200/device.xml" "uuid:1" "rcast" 1800 ssdpWorld0).1
      (fun n _ => ⟨n, n + 1, rfl⟩),
   by rw [((NewUpnpAds_registers_six (countingLib none none) sampleConsts
      "http://10.0.0.2:8200/device.xml" "uuid:1" "rcast" 1800 ssdpWorld0).2
      { rootAds := [0, 1, 2, 3, 4, 5] } rfl).2]; rfl,
   by rw [((NewUpnpAds_registers_six (countingLib none none) sampleConsts
      "http://10.0.0.2:8200/device.xml" "uuid:1" "rcast" 1800 ssdpWorld0).2
      { rootAds := [0, 1, 2, 3, 4, 5] } rfl).2]; rfl⟩

/-! ## Theorems: the search handler and the announcement loop -/

/-- C8: on a constructed set, the `Search` handler runs `NotifyAll` exactly once when
the search type contains `ssdp:all`, `service:ContentDirectory`,
`service:ConnectionManager` or `device:MediaServer`, and returns normally whatever
`NotifyAll` returned; for every other type it returns with the world untouched. -/
theorem searchHandler_allow_list {σ A : Type} (lib : SsdpLib σ A) (u : UpnpAds A)
    (m : SearchMessage) (w : SsdpWorld σ A) :
    ((Contains m.SearchType "ssdp:all" = true ∨
        Contains m.SearchType "service:ContentDirectory" = true ∨
        Contains m.SearchType "service:ConnectionManager" = true ∨
        Contains m.SearchType "device:MediaServer" = true) →
      searchHandler lib (some u) m w = Outcome.returned (u.NotifyAll lib w).2 ∧
      notifyCalls (u.NotifyAll lib w).2.trace = notifyCalls w.trace + 1) ∧
    (¬(Contains m.SearchType "ssdp:all" = true ∨
        Contains m.SearchType "service:ContentDirectory" = true ∨
        Contains m.SearchType "service:ConnectionManager" = true ∨
        Contains m.SearchType "device:MediaServer" = true) →
      searchHandler lib (some u) m w = Outcome.returned w) := by
  constructor
  · intro h
    have hs : isSearch m.SearchType = true := by
      simp only [isSearch, Bool.or_eq_true]
      tauto
    exact ⟨by simp [searchHandler, hs], (NotifyAll_calls lib u w).1⟩
  · intro h
    have hs : isSearch m.SearchType = false := by
      rw [← Bool.not_eq_true]
      simp only [isSearch, Bool.or_eq_true]
      tauto
    simp [searchHandler, hs]

/-- C8 (witness): type `service:ContentDirectory` triggers one `NotifyAll`, also when
its second send fails, and `some:unrelated:type` triggers none. -/
theorem searchHandler_allow_list_witness :
    (searchHandler (countingLib none (some 1)) (some threeAds)
        { From := "10.0.0.9:1900", SearchType := "service:ContentDirectory" } ssdpWorld0
      = Outcome.returned (threeAds.NotifyAll (countingLib none (some 1)) ssdpWorld0).2 ∧
      notifyCalls (threeAds.NotifyAll (countingLib none (some 1)) ssdpWorld0).2.trace
        = notifyCalls ssdpWorld0.trace + 1) ∧
    searchHandler (countingLib none (some 1)) (some threeAds)
        { From := "10.0.0.9:1900", SearchType := "some:unrelated:type" } ssdpWorld0
      = Outcome.returned ssdpWorld0 :=
  ⟨(searchHandler_allow_list (countingLib none (some 1)) threeAds
      { From := "10.0.0.9:1900", SearchType := "service:ContentDirectory" } ssdpWorld0).1
      (by decide),
   (searchHandler_allow_list (countingLib none (some 1)) threeAds
      { From := "10.0.0.9:1900", SearchType := "some:unrelated:type" } ssdpWorld0).2
      (by decide)⟩

theorem schedRun_append {σ A : Type} (lib : SsdpLib σ A) (ads : Option (UpnpAds A))
    (s : SchedState σ A) (es1 es2 : List SchedEvent) :
    schedRun lib ads s (es1 ++ es2) = schedRun lib ads (schedRun lib ads s es1) es2 := by
  induction es1 generalizing s with
  | nil => rfl
  | cons e es ih => simp [schedRun, ih]

theorem schedRun_stopped {σ A : Type} (lib : SsdpLib σ A) (ads : Option (UpnpAds A))
    (w : SsdpWorld σ A) (es : List SchedEvent) :
    schedRun lib ads (SchedState.Stopped w) es = SchedState.Stopped w := by
  induction es with
  | nil => rfl
  | cons e es ih => simpa [schedRun, schedStep] using ih

theorem schedRun_ticks {σ A : Type} (lib : SsdpLib σ A) (u : UpnpAds A) (w : SsdpWorld σ A)
    (n : Nat) :
    ∃ wn, schedRun lib (some u) (SchedState.Running w) (List.replicate n SchedEvent.tick)
        = SchedState.Running wn ∧
      notifyCalls wn.trace = notifyCalls w.trace + n ∧ closeCalls wn.trace = closeCalls w.trace := by
  induction n generalizing w with
  | zero => exact ⟨w, rfl, rfl, rfl⟩
  | succ n ih =>
    obtain ⟨wn, h1, h2, h3⟩ := ih (u.NotifyAll lib w).2
    refine ⟨wn, ?_, ?_, ?_⟩
    · simpa [List.replicate_succ, schedRun, schedStep] using h1
    · rw [h2, (NotifyAll_calls lib u w).1]
      omega
    · rw [h3, (NotifyAll_calls lib u w).2]

/-- C9: on a constructed set, a timer tick in state Running runs `NotifyAll` once and
leaves the loop Running, whatever `NotifyAll` returned; a run of `n` ticks followed
by the cancellation ends in Stopped after `n` calls of `NotifyAll` and exactly one
call of `CloseAll`; and from Stopped no event changes the state, so neither is
called again. -/
theorem scheduler_run {σ A : Type} (lib : SsdpLib σ A) (u : UpnpAds A) (w : SsdpWorld σ A)
    (n : Nat) :
    (∀ w1 : SsdpWorld σ A,
      schedStep lib (some u) (SchedState.Running w1) SchedEvent.tick
        = SchedState.Running (u.NotifyAll lib w1).2 ∧
      notifyCalls (u.NotifyAll lib w1).2.trace = notifyCalls w1.trace + 1 ∧
      closeCalls (u.NotifyAll lib w1).2.trace = closeCalls w1.trace) ∧
    ∃ wn wf : SsdpWorld σ A,
      schedRun lib (some u) (SchedState.Running w) (List.replicate n SchedEvent.tick)
        = SchedState.Running wn ∧
      schedRun lib (some u) (SchedState.Running w)
          (List.replicate n SchedEvent.tick ++ [SchedEvent.cancel])
        = SchedState.Stopped wf ∧
      wf = u.CloseAll lib wn ∧
      notifyCalls wf.trace = notifyCalls w.trace + n ∧
      closeCalls wf.trace = closeCalls w.trace + 1 ∧
      ∀ es : List SchedEvent,
        schedRun lib (some u) (SchedState.Running w)
            (List.replicate n SchedEvent.tick ++ SchedEvent.cancel :: es)
          = SchedState.Stopped wf := by
  constructor
  · intro w1
    exact ⟨rfl, NotifyAll_calls lib u w1⟩
  · obtain ⟨wn, h1, h2, h3⟩ := schedRun_ticks lib u w n
    refine ⟨wn, u.CloseAll lib wn, h1, ?_, rfl, ?_, ?_, ?_⟩
    · rw [schedRun_append, h1]
      rfl
    · rw [(CloseAll_calls lib u wn).1, h2]
    · rw [(CloseAll_calls lib u wn).2, h3]
    · intro es
      rw [schedRun_append, h1]
      simp only [schedRun, schedStep]
      exact schedRun_stopped lib (some u) _ es

end Rcast
